import Mathlib

/-!
# Verification of the MCO core runtime

A shallow embedding of the MCO multi-provider code-review orchestrator
(`runtime/orchestrator.py`, `runtime/adapters/shim.py`, `runtime/formatters.py`)
together with proofs of the behavioural properties stated in the specification.

Modelling conventions:
* Python dictionaries become association lists (`List (String × String)` etc.);
  equality of dictionaries is stated pointwise through `List.lookup`.
* Python floats become exact rationals `ℚ`.
* OS interactions (child-process liveness polls, signal delivery errors) are
  supplied to the embedded functions as explicit oracle records, so that each
  code path of the source is reachable by choosing a concrete oracle.
* Fallible operations return `Option`/pairs carrying an error component.
-/

/-- Modelled from the spec (§4.A); `runtime/types.py` is not part of the
provided sources.  The closed `ErrorKind` enumeration. -/
inductive ErrorKind
  | RETRYABLE_TIMEOUT
  | RETRYABLE_RATE_LIMIT
  | RETRYABLE_TRANSIENT_NETWORK
  | NON_RETRYABLE_AUTH
  | NON_RETRYABLE_INVALID_INPUT
  | NON_RETRYABLE_PROVIDER_ERROR
  | NORMALIZATION_ERROR
deriving DecidableEq

/-- Modelled from the spec (§4.A); `runtime/types.py` is not part of the
provided sources.  Warning kinds (open enum, one member required). -/
inductive WarningKind
  | PROVIDER_WARNING_MCP_STARTUP
deriving DecidableEq

/-- Modelled from the spec (§3); `runtime/types.py` is not part of the
provided sources.  Orchestrator-level task states. -/
inductive TaskState
  | DRAFT
  | QUEUED
  | DISPATCHED
  | RUNNING
  | RETRYING
  | AGGREGATING
  | COMPLETED
  | PARTIAL_SUCCESS
  | FAILED
  | CANCELLED
  | EXPIRED
deriving DecidableEq, Fintype

/-- Printable name of a task state (used in the illegal-transition message). -/
def TaskState.toName : TaskState → String
  | .DRAFT => "DRAFT"
  | .QUEUED => "QUEUED"
  | .DISPATCHED => "DISPATCHED"
  | .RUNNING => "RUNNING"
  | .RETRYING => "RETRYING"
  | .AGGREGATING => "AGGREGATING"
  | .COMPLETED => "COMPLETED"
  | .PARTIAL_SUCCESS => "PARTIAL_SUCCESS"
  | .FAILED => "FAILED"
  | .CANCELLED => "CANCELLED"
  | .EXPIRED => "EXPIRED"

/-- `RETRYABLE_ERRORS` from `runtime/orchestrator.py` (lines 11-15). -/
def RETRYABLE_ERRORS : List ErrorKind :=
  [ErrorKind.RETRYABLE_TIMEOUT, ErrorKind.RETRYABLE_RATE_LIMIT,
   ErrorKind.RETRYABLE_TRANSIENT_NETWORK]

/-- Modelled from the spec (§4.B); `runtime/retry.py` is not part of the
provided sources.  A retry policy value object: `max_retries` (int ≥ 0),
`base_delay_seconds`, `backoff_multiplier` (modelled as exact rationals). -/
structure RetryPolicy where
  max_retries : Nat
  base_delay_seconds : ℚ
  backoff_multiplier : ℚ
deriving DecidableEq

/-- Modelled from the spec (§4.B): `compute_delay(retry_index)` returns
`base_delay_seconds * backoff_multiplier^(retry_index - 1)` for
`retry_index ≥ 1`. -/
def RetryPolicy.compute_delay (p : RetryPolicy) (retry_index : Nat) : ℚ :=
  p.base_delay_seconds * p.backoff_multiplier ^ (retry_index - 1)

/-- Modelled from the spec (§3); `runtime/types.py` is not part of the
provided sources.  The result of one runner attempt; the opaque `output`
record is a type parameter. -/
structure AttemptResult (α : Type) where
  success : Bool
  output : Option α := none
  error_kind : Option ErrorKind := none
  warnings : List WarningKind := []

/-- Modelled from the spec (§3); `runtime/types.py` is not part of the
provided sources.  Summary of one provider across all retry attempts. -/
structure RunResult (α : Type) where
  task_id : String
  provider : String
  success : Bool
  attempts : Nat
  delays_seconds : List ℚ
  output : Option α
  final_error : Option ErrorKind
  warnings : List WarningKind

/-- The `while True` loop body of `OrchestratorRuntime.run_with_retry`
(`runtime/orchestrator.py` lines 71-108), entered with the current value of
`attempts` and the accumulated `delays` and warnings.  The injected
`sleep_fn(delay)` call has no effect in a pure embedding; the slept delays are
exactly the elements appended to `delays`. -/
def run_with_retry_loop {α : Type} (policy : RetryPolicy) (task_id provider : String)
    (runner : Nat → AttemptResult α) (attempts : Nat) (delays : List ℚ)
    (all_warnings : List WarningKind) : RunResult α :=
  let attempts' := attempts + 1
  let result := runner attempts'
  let warnings' := all_warnings ++ result.warnings
  if result.success then
    { task_id := task_id, provider := provider, success := true, attempts := attempts',
      delays_seconds := delays, output := result.output, final_error := none,
      warnings := warnings' }
  else
    let final_error := result.error_kind.getD ErrorKind.NORMALIZATION_ERROR
    if h : final_error ∈ RETRYABLE_ERRORS ∧ attempts' ≤ policy.max_retries then
      let delay_seconds := policy.compute_delay attempts'
      run_with_retry_loop policy task_id provider runner attempts'
        (delays ++ [delay_seconds]) warnings'
    else
      { task_id := task_id, provider := provider, success := false, attempts := attempts',
        delays_seconds := delays, output := result.output, final_error := some final_error,
        warnings := warnings' }
termination_by policy.max_retries + 1 - attempts
decreasing_by
  have h2 := h.2
  omega

/-- `OrchestratorRuntime.run_with_retry` (`runtime/orchestrator.py` lines
59-108): starts the loop with `attempts = 0`, no delays, no warnings. -/
def run_with_retry {α : Type} (policy : RetryPolicy) (task_id provider : String)
    (runner : Nat → AttemptResult α) : RunResult α :=
  run_with_retry_loop policy task_id provider runner 0 [] []

/-- `VALID_TRANSITIONS` from `runtime/orchestrator.py` (lines 18-37); the
Python sets become lists. -/
def VALID_TRANSITIONS : TaskState → List TaskState
  | .DRAFT => [.QUEUED]
  | .QUEUED => [.DISPATCHED, .CANCELLED, .EXPIRED]
  | .DISPATCHED => [.RUNNING, .CANCELLED, .EXPIRED]
  | .RUNNING => [.RETRYING, .AGGREGATING, .FAILED, .CANCELLED, .EXPIRED, .PARTIAL_SUCCESS]
  | .RETRYING => [.RUNNING, .FAILED, .EXPIRED]
  | .AGGREGATING => [.COMPLETED, .PARTIAL_SUCCESS, .FAILED]
  | .COMPLETED => []
  | .PARTIAL_SUCCESS => []
  | .FAILED => []
  | .CANCELLED => []
  | .EXPIRED => []

/-- The five terminal task states (spec §3). -/
def TERMINAL_STATES : List TaskState :=
  [.COMPLETED, .PARTIAL_SUCCESS, .FAILED, .CANCELLED, .EXPIRED]

/-- `TaskStateMachine.transition` (`runtime/orchestrator.py` lines 44-47).
The Python method mutates `self.state` on success and raises `ValueError`
(leaving `self.state` untouched) otherwise; we model the stored state after
the call together with the raised message. -/
def transition (state next_state : TaskState) : TaskState × Option String :=
  if next_state ∈ VALID_TRANSITIONS state then (next_state, none)
  else (state, some ("illegal transition " ++ state.toName ++ " -> " ++ next_state.toName))

/-- `OrchestratorRuntime.evaluate_terminal_state` (`runtime/orchestrator.py`
lines 110-118); the Python dict becomes an association list with the same
values, `successes` counts the `true` values. -/
def evaluate_terminal_state (required_provider_success : List (String × Bool)) : TaskState :=
  if required_provider_success.isEmpty then TaskState.FAILED
  else
    let successes := required_provider_success.countP (fun p => p.2)
    if successes = 0 then TaskState.FAILED
    else if successes = required_provider_success.length then TaskState.COMPLETED
    else TaskState.PARTIAL_SUCCESS

/-- `OrchestratorRuntime.should_expire` (`runtime/orchestrator.py` lines
120-132). -/
def should_expire (elapsed_seconds timeout_seconds grace_seconds
    heartbeat_age_seconds heartbeat_ttl_seconds : ℚ) : Bool :=
  if elapsed_seconds > timeout_seconds + grace_seconds then true
  else if heartbeat_age_seconds > heartbeat_ttl_seconds then true
  else false

/-- Python `str.lower()`: character-wise lowercasing. -/
def py_lower (s : String) : String := String.mk (s.data.map Char.toLower)

/-- Python `str.strip()`: drop leading and trailing whitespace. -/
def py_strip (s : String) : String :=
  String.mk (((s.data.dropWhile Char.isWhitespace).reverse.dropWhile
    Char.isWhitespace).reverse)

/-- `_ENV_VARS_TO_STRIP` from `runtime/adapters/shim.py` (lines 44-46). -/
def ENV_VARS_TO_STRIP : List String := ["CLAUDECODE"]

/-- `_sanitize_env` (`runtime/adapters/shim.py` lines 49-54): a copy of the
ambient environment (an association list standing for `os.environ`) with each
variable of `ENV_VARS_TO_STRIP` removed (`env.pop(key, None)`). -/
def sanitize_env (environ : List (String × String)) : List (String × String) :=
  ENV_VARS_TO_STRIP.foldl (fun env key => env.filter (fun p => p.1 ≠ key)) environ

/-- The environment handed to `subprocess.Popen` inside `ShimAdapterBase.run`
(`runtime/adapters/shim.py` line 121): `env=_sanitize_env()`. -/
def run_child_env (environ : List (String × String)) : List (String × String) :=
  sanitize_env environ

/-- The environment handed to `subprocess.run` inside
`ShimAdapterBase._probe_version` (`runtime/adapters/shim.py` line 262). -/
def probe_version_env (environ : List (String × String)) : List (String × String) :=
  sanitize_env environ

/-- The environment handed to `subprocess.run` inside
`ShimAdapterBase._probe_auth` (`runtime/adapters/shim.py` line 274). -/
def probe_auth_env (environ : List (String × String)) : List (String × String) :=
  sanitize_env environ

/-- `ShimRunHandle` (`runtime/adapters/shim.py` lines 34-41).  The live
`subprocess.Popen` object and the two open file objects are OS resources; the
process is observed only through the `poll()` oracles below, so the handle
keeps the identifying data. -/
structure ShimRunHandle where
  pid : Int
  stdout_path : String
  stderr_path : String
  provider_result_path : String
deriving DecidableEq

/-- The run-handle table `self._runs : Dict[str, ShimRunHandle]`, as an
association list keyed by `run_id`. -/
def RunTable := List (String × ShimRunHandle)

/-- `run_id ∈ self._runs`. -/
def RunTable.containsRun (runs : RunTable) (run_id : String) : Bool :=
  (List.lookup run_id runs).isSome

/-- `self._runs.pop(run_id, None)`: the table without the key. -/
def RunTable.removeRun (runs : RunTable) (run_id : String) : RunTable :=
  List.filter (fun p => p.1 ≠ run_id) runs

/-- `TaskRunRef` (spec §3): the handle identity carried by callers; `poll` and
`cancel` use `task_id`, `provider` context and `run_id`. -/
structure TaskRunRef where
  task_id : String
  provider : String
  run_id : String
  pid : Int
  started_at : String
deriving DecidableEq

/-- `TaskStatus` (spec §3, constructed in `ShimAdapterBase.poll`).
`attempt_state` is the literal string written by the source. -/
structure TaskStatus where
  task_id : String
  provider : String
  run_id : String
  attempt_state : String
  completed : Bool
  heartbeat_at : Option String
  output_path : Option String
  error_kind : Option ErrorKind
  exit_code : Option Int
  message : String
deriving DecidableEq

/-- Case-insensitive substring test: `marker in text` after lowercasing, as
used by the error classifier.  `splitOn` yields more than one piece exactly
when the (non-empty) pattern occurs in the text. -/
def contains_marker (text marker : String) : Bool :=
  (text.splitOn marker).length > 1

/-- Modelled from the spec (§4.D); `runtime/errors.py` is not part of the
provided sources.  `classify_error(exit_code, stderr_text)` matches lowercased
`stderr_text` against marker sets in priority order; the exit code does not
participate in the matching. -/
def classify_error (exit_code : Int) (stderr_text : String) : ErrorKind :=
  let s := py_lower stderr_text
  let _ := exit_code
  if ["timeout", "timed out", "deadline"].any (contains_marker s) then
    ErrorKind.RETRYABLE_TIMEOUT
  else if ["rate limit", "429", "too many requests"].any (contains_marker s) then
    ErrorKind.RETRYABLE_RATE_LIMIT
  else if ["connection reset", "temporary failure", "dns", "econnreset",
      "unreachable"].any (contains_marker s) then
    ErrorKind.RETRYABLE_TRANSIENT_NETWORK
  else if ["unauthorized", "not logged in", "token", "api key"].any (contains_marker s) then
    ErrorKind.NON_RETRYABLE_AUTH
  else ErrorKind.NON_RETRYABLE_PROVIDER_ERROR

/-- OS observations made during one `ShimAdapterBase.poll` call:
the `handle.process.poll()` return code (`none` = still running), the captured
stderr text read back from disk, and the `now_iso()` timestamp. -/
structure PollOsOracle where
  proc_poll : Option Int
  stdout_text : String
  stderr_text : String
  now : String
deriving DecidableEq

/-- `ShimAdapterBase.poll` (`runtime/adapters/shim.py` lines 152-220) for the
base adapter, whose `_is_success(rc, out, err)` is `rc == 0`.  Returns the
`TaskStatus` together with the run table after the call.  The best-effort
closing of the capture files and the write of the per-provider JSON result
file are filesystem effects outside the pure state; the table update
(`self._runs.pop(ref.run_id, None)`) on the terminal path is modelled. -/
def ShimAdapterBase.poll (provider : String) (runs : RunTable) (ref : TaskRunRef)
    (os : PollOsOracle) : TaskStatus × RunTable :=
  match List.lookup ref.run_id runs with
  | none =>
      ({ task_id := ref.task_id, provider := provider, run_id := ref.run_id,
         attempt_state := "EXPIRED", completed := true, heartbeat_at := none,
         output_path := none, error_kind := some ErrorKind.NON_RETRYABLE_INVALID_INPUT,
         exit_code := none, message := "run_handle_not_found" }, runs)
  | some handle =>
    match os.proc_poll with
    | none =>
        ({ task_id := ref.task_id, provider := provider, run_id := ref.run_id,
           attempt_state := "STARTED", completed := false, heartbeat_at := some os.now,
           output_path := some handle.provider_result_path, error_kind := none,
           exit_code := none, message := "running" }, runs)
    | some return_code =>
        let success := return_code = 0
        let error_kind := if success then none
          else some (classify_error return_code os.stderr_text)
        ({ task_id := ref.task_id, provider := provider, run_id := ref.run_id,
           attempt_state := if success then "SUCCEEDED" else "FAILED", completed := true,
           heartbeat_at := some os.now, output_path := some handle.provider_result_path,
           error_kind := error_kind, exit_code := some return_code,
           message := "completed" }, runs.removeRun ref.run_id)

/-- OS observations made during one `ShimAdapterBase.cancel` call, in source
order: the liveness poll before signalling, whether `os.killpg(..., SIGTERM)`
raised `ProcessLookupError`, the poll after the 200 ms sleep, whether
`os.killpg(..., SIGKILL)` raised `ProcessLookupError`, and the final poll. -/
structure CancelOsOracle where
  poll_before : Option Int
  term_lookup_error : Bool
  poll_after_term : Option Int
  kill_lookup_error : Bool
  poll_final : Option Int
deriving DecidableEq

/-- `ShimAdapterBase.cancel` (`runtime/adapters/shim.py` lines 222-247):
returns the run table after the call.  Signal delivery and the two sleeps are
OS effects; each branch of the source is selected by the oracle. -/
def ShimAdapterBase.cancel (runs : RunTable) (ref : TaskRunRef)
    (os : CancelOsOracle) : RunTable :=
  match List.lookup ref.run_id runs with
  | none => runs
  | some _ =>
    if os.poll_before.isSome then runs.removeRun ref.run_id
    else if os.term_lookup_error then runs.removeRun ref.run_id
    else if os.poll_after_term = none then
      if os.kill_lookup_error then runs.removeRun ref.run_id
      else if os.poll_final.isSome then runs.removeRun ref.run_id
      else runs
    else
      if os.poll_final.isSome then runs.removeRun ref.run_id
      else runs

/-- `evidence = {file, line, snippet}` of a finding (spec §3). -/
structure Evidence where
  file : String
  line : Option Int
  snippet : String
deriving DecidableEq

/-- A normalized finding as consumed by the formatters
(`runtime/formatters.py`); fields mirror the keys the formatters read.  The
spec's `NormalizedFinding` (§3) makes `severity`, `category`, `title`,
`recommendation` and `fingerprint` mandatory strings; `confidence` is modelled
as an exact rational when numeric, `detected_by`/`provider` are the optional
keys read by the SARIF formatter. -/
structure Finding where
  severity : String
  category : String
  title : String
  recommendation : String
  confidence : Option ℚ := none
  evidence : Option Evidence := none
  fingerprint : String := ""
  detected_by : Option (List String) := none
  provider : Option String := none
deriving DecidableEq

/-- The summary payload read by the formatters (`payload.get(...)`). -/
structure Payload where
  decision : Option String := none
  terminal_state : Option String := none
  findings_count : Option Int := none
  provider_success_count : Option Int := none
  provider_failure_count : Option Int := none
deriving DecidableEq

/-- Python `str.replace` for a single-character pattern: every occurrence of
`c` becomes the fragment `t`. -/
def replace_char (c : Char) (t : List Char) (s : List Char) : List Char :=
  s.flatMap (fun x => if x = c then t else [x])

/-- `_escape_markdown_cell` (`runtime/formatters.py` lines 17-19):
`text.replace("\\", "\\\\").replace("|", "\\|").replace("\n", "<br>")`,
applied in that order. -/
def escape_markdown_cell (value : String) : String :=
  String.mk (replace_char '\n' "<br>".data
    (replace_char '|' ['\\', '|'] (replace_char '\\' ['\\', '\\'] value.data)))

/-- The per-character expansion that the three sequential replacements of
`escape_markdown_cell` amount to. -/
def escape_char_expansion (c : Char) : List Char :=
  if c = '\\' then ['\\', '\\']
  else if c = '|' then ['\\', '|']
  else if c = '\n' then "<br>".data
  else [c]

/-- A character list in which the markdown-special characters occur only as
part of an escape sequence: it is a concatenation of ordinary characters,
`\\` pairs and `\|` pairs, with no raw newline, raw pipe, or stray
backslash. -/
inductive EscapedCells : List Char → Prop
  | nil : EscapedCells []
  | plain (c : Char) (h1 : c ≠ '\\') (h2 : c ≠ '|') (h3 : c ≠ '\n') {l : List Char} :
      EscapedCells l → EscapedCells (c :: l)
  | escaped_backslash {l : List Char} : EscapedCells l → EscapedCells ('\\' :: '\\' :: l)
  | escaped_pipe {l : List Char} : EscapedCells l → EscapedCells ('\\' :: '|' :: l)

/-- `_finding_location` (`runtime/formatters.py` lines 22-32). -/
def finding_location (f : Finding) : String :=
  match f.evidence with
  | none => "-"
  | some evidence =>
    let file_path := py_strip evidence.file
    if file_path = "" then "-"
    else
      match evidence.line with
      | some line => if line > 0 then file_path ++ ":" ++ toString line else file_path
      | none => file_path

/-- Zero-padded two-digit rendering of `k < 100`. -/
def two_digits (k : Nat) : String :=
  if k < 10 then "0" ++ toString k else toString k

/-- The confidence cell `f"{float(confidence_value):.2f}"`
(`runtime/formatters.py` line 84) for a numeric confidence, modelled over
exact rationals with round-half-to-even on the hundredths digit; the binary
floating-point representation error of the Python original is not modelled. -/
def format_confidence (q : ℚ) : String :=
  let n : Int := round (q * 100)
  (if n < 0 then "-" else "") ++ toString (n.natAbs / 100) ++ "." ++ two_digits (n.natAbs % 100)

/-- Python `" | ".join(cells)`. -/
def py_join (sep : String) : List String → String
  | [] => ""
  | [s] => s
  | s :: rest => s ++ sep ++ py_join sep rest

/-- The five escaped text cells of one findings-table row, in source order
(`runtime/formatters.py` lines 91-96): lowercased severity, category, title,
location, recommendation.  (The sixth cell, confidence, is numeric text and is
not escaped by the source.) -/
def finding_cell_sources (f : Finding) : List String :=
  [py_lower f.severity, f.category, f.title, finding_location f, f.recommendation]

/-- The `confidence_text` cell (`runtime/formatters.py` lines 82-86):
the numeric confidence rendered with two decimals, or `"-"`. -/
def confidence_cell (f : Finding) : String :=
  match f.confidence with
  | some q => format_confidence q
  | none => "-"

/-- The six cells joined into one findings-table row, in source order
(`runtime/formatters.py` lines 89-98): the severity and location cells are
wrapped in backticks and every text cell is escaped. -/
def row_cells (f : Finding) : List String :=
  [ "`" ++ escape_markdown_cell (py_lower f.severity) ++ "`",
    escape_markdown_cell f.category,
    escape_markdown_cell f.title,
    "`" ++ escape_markdown_cell (finding_location f) ++ "`",
    confidence_cell f,
    escape_markdown_cell f.recommendation ]

/-- One findings-table row (`runtime/formatters.py` lines 87-100):
`"| " + " | ".join(cells) + " |"`. -/
def render_finding_row (f : Finding) : String :=
  "| " ++ py_join " | " (row_cells f) ++ " |"

/-- `_SEVERITY_ORDER` (`runtime/formatters.py` line 8). -/
def SEVERITY_ORDER : List String := ["critical", "high", "medium", "low"]

/-- One entry of the `counts` dict built by `format_markdown_pr`
(`runtime/formatters.py` lines 36-40): the number of findings whose lowercased
severity equals `level`. -/
def severity_count (findings : List Finding) (level : String) : Nat :=
  (findings.filter (fun f => py_lower f.severity = level)).length

/-- The sum of the four Severity Breakdown counts. -/
def breakdown_total (findings : List Finding) : Nat :=
  (SEVERITY_ORDER.map (severity_count findings)).sum

/-- The sort rank of a finding's severity (`runtime/formatters.py` lines
74-76): its index in `SEVERITY_ORDER`, or `len(SEVERITY_ORDER)` when absent
(`List.indexOf` returns the length for a missing element, exactly as the
Python conditional does). -/
def severity_rank (f : Finding) : Nat :=
  SEVERITY_ORDER.indexOf (py_lower f.severity)

/-- The sort key `(severity_rank, location, title)` of
`runtime/formatters.py` lines 73-79. -/
def finding_sort_key (f : Finding) : Nat × String × String :=
  (severity_rank f, finding_location f, f.title)

/-- Lexicographic comparison of sort keys, as Python compares tuples. -/
def finding_key_le (a b : Finding) : Bool :=
  decide (toLex ((finding_sort_key a).1, toLex (finding_sort_key a).2)
    ≤ toLex ((finding_sort_key b).1, toLex (finding_sort_key b).2))

/-- `ordered_findings = sorted(findings, key=...)` (`runtime/formatters.py`
lines 71-80). -/
def ordered_findings (findings : List Finding) : List Finding :=
  findings.mergeSort finding_key_le

/-- The rows appended to the findings table, one per finding, in sorted order
(`runtime/formatters.py` lines 81-100). -/
def markdown_finding_rows (findings : List Finding) : List String :=
  (ordered_findings findings).map render_finding_row

/-- Keep only ASCII alphanumeric characters, collapsing every maximal run of
other characters into a single `-`: the effect of
`re.sub(r"[^a-zA-Z0-9]+", "-", ...)`. -/
def collapse_non_alnum : List Char → List Char
  | [] => []
  | c :: rest =>
    let tail := collapse_non_alnum rest
    if c.isAlphanum then c :: tail
    else
      match tail with
      | '-' :: _ => tail
      | _ => '-' :: tail

/-- Python `str.strip("-")`: drop leading and trailing dashes. -/
def strip_dashes (l : List Char) : List Char :=
  ((l.dropWhile (fun c => c = '-')).reverse.dropWhile (fun c => c = '-')).reverse

/-- `_normalize_rule_name` (`runtime/formatters.py` lines 104-106). -/
def normalize_rule_name (category title : String) : String :=
  let normalized := String.mk (strip_dashes
    (collapse_non_alnum (py_lower (py_strip (category ++ "-" ++ title))).data))
  if normalized = "" then "finding" else normalized

/-- `_rule_id_for_finding` (`runtime/formatters.py` lines 109-113).  The
`hashlib.sha256(...).hexdigest()[:10]` suffix comes from an external library;
it is passed in as the opaque function `hash10` applied to the hashed text
`category || "||" || title`. -/
def rule_id_for_finding (hash10 : String → String) (f : Finding) : String :=
  let category := let c := py_lower (py_strip f.category); if c = "" then "general" else c
  let title := py_strip f.title
  let suffix := hash10 (category ++ "||" ++ title)
  "mco/" ++ normalize_rule_name category title ++ "/" ++ suffix

/-- `_SARIF_LEVEL_BY_SEVERITY` lookup with default `"note"`
(`runtime/formatters.py` lines 9-14 and 126). -/
def sarif_level (severity : String) : String :=
  if severity = "critical" then "error"
  else if severity = "high" then "warning"
  else if severity = "medium" then "note"
  else if severity = "low" then "note"
  else "note"

/-- One rule object of `tool.driver.rules` (`runtime/formatters.py` lines
137-145). -/
structure SarifRule where
  id : String
  name : String
  shortDescription_text : String
  properties_category : String
  help_text : Option String
deriving DecidableEq

/-- The physical location attached to a result (`runtime/formatters.py` lines
160-177). -/
structure SarifLocation where
  uri : String
  startLine : Option Int
  snippet_text : Option String
deriving DecidableEq

/-- One entry of `results` (`runtime/formatters.py` lines 147-178). -/
structure SarifResult where
  ruleId : String
  level : String
  message_text : String
  properties_category : String
  properties_severity : String
  properties_confidence : ℚ
  properties_detected_by : List String
  properties_fingerprint : String
  locations : Option SarifLocation
deriving DecidableEq

/-- The single run object (`runtime/formatters.py` lines 183-198). -/
structure SarifRun where
  driver_name : String
  informationUri : String
  rules : List SarifRule
  results : List SarifResult
  properties_decision : Option String
  properties_terminal_state : Option String
  properties_findings_count : Option Int
deriving DecidableEq

/-- The emitted SARIF document (`runtime/formatters.py` lines 180-200). -/
structure SarifDoc where
  schema : String
  version : String
  runs : List SarifRun
deriving DecidableEq

/-- The body of the `for finding in findings` loop of `format_sarif`
(`runtime/formatters.py` lines 120-178), threading the `rules_by_id` mapping
(an id-keyed insertion-ordered list) and the `results` accumulator. -/
def sarif_step (hash10 : String → String) (acc : List SarifRule × List SarifResult)
    (f : Finding) : List SarifRule × List SarifResult :=
  let rule_id := rule_id_for_finding hash10 f
  let title := let t := py_strip f.title; if t = "" then "Finding" else t
  let recommendation := py_strip f.recommendation
  let category := py_lower (py_strip f.category)
  let severity := py_lower (py_strip f.severity)
  let level := sarif_level severity
  let confidence_value := f.confidence.getD 0
  let detected_by_value :=
    match f.detected_by with
    | some items => items.filter (fun s => s ≠ "")
    | none =>
      match f.provider with
      | some p => if p ≠ "" then [p] else []
      | none => []
  let rule_payload : SarifRule :=
    { id := rule_id, name := normalize_rule_name category title,
      shortDescription_text := title, properties_category := category,
      help_text := if recommendation = "" then none else some recommendation }
  let rules :=
    if acc.1.any (fun r => r.id = rule_id) then acc.1
    else acc.1 ++ [rule_payload]
  let locations :=
    match f.evidence with
    | none => none
    | some evidence =>
      let file_path := py_strip evidence.file
      let start_line : Option Int :=
        match evidence.line with
        | some line => if line > 0 then some line else none
        | none => none
      let sn := py_strip evidence.snippet
      let location : SarifLocation :=
        { uri := file_path, startLine := start_line,
          snippet_text := if sn = "" then none else some sn }
      if file_path = "" then none else some location
  let result_payload : SarifResult :=
    { ruleId := rule_id, level := level, message_text := title,
      properties_category := category, properties_severity := severity,
      properties_confidence := confidence_value,
      properties_detected_by := detected_by_value,
      properties_fingerprint := f.fingerprint, locations := locations }
  (rules, acc.2 ++ [result_payload])

/-- `format_sarif` (`runtime/formatters.py` lines 116-200). -/
def format_sarif (hash10 : String → String) (payload : Payload)
    (findings : List Finding) : SarifDoc :=
  let acc := findings.foldl (sarif_step hash10) ([], [])
  let run : SarifRun :=
    { driver_name := "MCO",
      informationUri := "https://github.com/mco-org/mco",
      rules := acc.1, results := acc.2,
      properties_decision := payload.decision,
      properties_terminal_state := payload.terminal_state,
      properties_findings_count := payload.findings_count }
  { schema := "https://json.schemastore.org/sarif-2.1.0.json",
    version := "2.1.0",
    runs := [run] }

/-- The rule ids of the emitted document's runs, in emission order. -/
def sarif_rule_ids (hash10 : String → String) (payload : Payload)
    (findings : List Finding) : List String :=
  (format_sarif hash10 payload findings).runs.flatMap (fun r => r.rules.map SarifRule.id)

/-! ## Helper lemmas -/

lemma lookup_filter_key_ne {β : Type} (l : List (String × β)) (key k : String) :
    List.lookup k (l.filter (fun p => p.1 ≠ key)) =
      if k = key then none else List.lookup k l := by
  induction l with
  | nil => simp
  | cons p tl ih =>
    obtain ⟨a, b⟩ := p
    by_cases hp : a = key
    · rw [List.filter_cons_of_neg (by simpa using hp), ih]
      by_cases hk : k = key
      · simp [hk]
      · have hne : (k == a) = false :=
          beq_eq_false_iff_ne.mpr (fun h => hk (h.trans hp))
        simp [hk, List.lookup, hne]
    · rw [List.filter_cons_of_pos (by simpa using hp)]
      by_cases hkp : k = a
      · have hk : ¬ k = key := fun h => hp (hkp ▸ h)
        have hbeq : (k == a) = true := beq_iff_eq.mpr hkp
        simp [List.lookup, hbeq, hk]
      · have hbeq : (k == a) = false := beq_eq_false_iff_ne.mpr hkp
        simp [List.lookup, hbeq]
        simpa using ih

lemma infix_trans {α : Type} {l₁ l₂ l₃ : List α} (h1 : l₁ <:+: l₂) (h2 : l₂ <:+: l₃) :
    l₁ <:+: l₃ := by
  obtain ⟨a, b, hab⟩ := h1
  obtain ⟨c, d, hcd⟩ := h2
  exact ⟨c ++ a, b ++ d, by rw [← hcd, ← hab]; simp [List.append_assoc]⟩

/-! ## C4: task state machine -/

/-- C4: for every pair of task states `(s, t)`, `transition` from `s` to `t`
succeeds (storing `t`, raising nothing) exactly when `t` is in the
legal-transition table for `s`, and otherwise raises an illegal-transition
error leaving the stored state unchanged; the five terminal states have no
outgoing edges. -/
theorem C4_state_machine_soundness :
    ∀ s t : TaskState,
      (t ∈ VALID_TRANSITIONS s → transition s t = (t, none)) ∧
      (t ∉ VALID_TRANSITIONS s →
        (transition s t).1 = s ∧ ((transition s t).2).isSome = true) ∧
      (s ∈ TERMINAL_STATES → VALID_TRANSITIONS s = []) := by
  decide

/-- Witness for C4 at concrete states: the legal edge `DRAFT → QUEUED`
succeeds and the illegal edge `DRAFT → RUNNING` fails without moving. -/
theorem C4_state_machine_soundness_witness :
    transition TaskState.DRAFT TaskState.QUEUED = (TaskState.QUEUED, none) ∧
    (transition TaskState.DRAFT TaskState.RUNNING).1 = TaskState.DRAFT ∧
    ((transition TaskState.DRAFT TaskState.RUNNING).2).isSome = true :=
  ⟨(C4_state_machine_soundness TaskState.DRAFT TaskState.QUEUED).1 (by decide),
   (C4_state_machine_soundness TaskState.DRAFT TaskState.RUNNING).2.1 (by decide)⟩

/-! ## C5: terminal-state reducer -/

/-- C5: `evaluate_terminal_state` returns FAILED on the empty map, FAILED when
no entry is true, COMPLETED when all entries are true, PARTIAL_SUCCESS
otherwise; and its result depends only on the multiset of boolean values, so
any permutation or renaming of the provider keys leaves it unchanged. -/
theorem C5_terminal_reducer :
    evaluate_terminal_state [] = TaskState.FAILED ∧
    (∀ m : List (String × Bool), (∀ p ∈ m, p.2 = false) →
      evaluate_terminal_state m = TaskState.FAILED) ∧
    (∀ m : List (String × Bool), m ≠ [] → (∀ p ∈ m, p.2 = true) →
      evaluate_terminal_state m = TaskState.COMPLETED) ∧
    (∀ m : List (String × Bool), (∃ p ∈ m, p.2 = true) → (∃ p ∈ m, p.2 = false) →
      evaluate_terminal_state m = TaskState.PARTIAL_SUCCESS) ∧
    (∀ m₁ m₂ : List (String × Bool), (m₁.map Prod.snd).Perm (m₂.map Prod.snd) →
      evaluate_terminal_state m₁ = evaluate_terminal_state m₂) := by
  refine ⟨rfl, ?_, ?_, ?_, ?_⟩
  · intro m hall
    have h0 : m.countP (fun p => p.2) = 0 :=
      List.countP_eq_zero.mpr (fun a ha => by simp [hall a ha])
    simp only [evaluate_terminal_state, h0]
    split <;> simp
  · intro m hne hall
    have hlen : m.countP (fun p => p.2) = m.length :=
      List.countP_eq_length.mpr (fun a ha => by simp [hall a ha])
    have hpos : 0 < m.length := List.length_pos.mpr hne
    have hemp : m.isEmpty = false := by
      cases m
      · exact absurd rfl hne
      · rfl
    have h0 : ¬ (m.length = 0) := by omega
    simp [evaluate_terminal_state, hlen, hemp, h0]
  · intro m ht hf
    obtain ⟨pt, hptm, hptt⟩ := ht
    obtain ⟨pf, hpfm, hpff⟩ := hf
    have hpos : 0 < m.countP (fun p => p.2) :=
      List.countP_pos_iff.mpr ⟨pt, hptm, by simp [hptt]⟩
    have hlt : ¬ (m.countP (fun p => p.2) = m.length) := by
      intro h
      have := List.countP_eq_length.mp h pf hpfm
      simp [hpff] at this
    have hemp : m.isEmpty = false := by
      cases m
      · cases hptm
      · rfl
    have h0 : ¬ (m.countP (fun p => p.2) = 0) := by omega
    simp [evaluate_terminal_state, hemp, h0, hlt]
  · intro m₁ m₂ hperm
    have hlen : m₁.length = m₂.length := by
      have := hperm.length_eq
      simpa using this
    have hcnt : m₁.countP (fun p => p.2) = m₂.countP (fun p => p.2) := by
      have := hperm.countP_eq (fun b => b)
      simpa [List.countP_map, Function.comp] using this
    have hemp : m₁.isEmpty = m₂.isEmpty := by
      cases m₁ <;> cases m₂ <;> simp_all
    simp only [evaluate_terminal_state]
    rw [hemp, hcnt, hlen]

/-- Witness for C5 at concrete maps (the S5 scenario of the spec). -/
theorem C5_terminal_reducer_witness :
    evaluate_terminal_state [("c", true), ("x", true)] = TaskState.COMPLETED ∧
    evaluate_terminal_state [("c", true), ("x", false)] = TaskState.PARTIAL_SUCCESS ∧
    evaluate_terminal_state [("c", false), ("x", false)] = TaskState.FAILED ∧
    evaluate_terminal_state [("c", true)] = evaluate_terminal_state [("renamed", true)] :=
  ⟨C5_terminal_reducer.2.2.1 [("c", true), ("x", true)] (by decide) (by decide),
   C5_terminal_reducer.2.2.2.1 [("c", true), ("x", false)] (by decide) (by decide),
   C5_terminal_reducer.2.1 [("c", false), ("x", false)] (by decide),
   C5_terminal_reducer.2.2.2.2 [("c", true)] [("renamed", true)] (by decide)⟩

/-! ## C6: non-retryable gating -/

/-- C6: when the first attempt fails and its reported error kind (a null kind
being coerced to `NORMALIZATION_ERROR`) is not retryable, `run_with_retry`
returns after exactly one runner invocation with `success = false`,
`attempts = 1`, no delays, and `final_error` equal to the coerced kind; hence
no non-retryable error ever produces `attempts > 1`. -/
theorem C6_non_retryable_no_retry {α : Type} (policy : RetryPolicy)
    (task_id provider : String) (runner : Nat → AttemptResult α)
    (hfail : (runner 1).success = false)
    (hkind : (runner 1).error_kind.getD ErrorKind.NORMALIZATION_ERROR ∉ RETRYABLE_ERRORS) :
    run_with_retry policy task_id provider runner =
      { task_id := task_id, provider := provider, success := false, attempts := 1,
        delays_seconds := [], output := (runner 1).output,
        final_error := some ((runner 1).error_kind.getD ErrorKind.NORMALIZATION_ERROR),
        warnings := (runner 1).warnings } := by
  unfold run_with_retry
  rw [run_with_retry_loop]
  simp [hfail, hkind]

/-- Witness for C6: a runner that always reports `NON_RETRYABLE_AUTH`. -/
theorem C6_non_retryable_no_retry_witness :
    run_with_retry ⟨2, 1, 2⟩ "task-3" "qwen"
        (fun _ => ({ success := false, error_kind := some ErrorKind.NON_RETRYABLE_AUTH } :
          AttemptResult Bool)) =
      { task_id := "task-3", provider := "qwen", success := false, attempts := 1,
        delays_seconds := [], output := none,
        final_error := some ErrorKind.NON_RETRYABLE_AUTH, warnings := [] } :=
  C6_non_retryable_no_retry ⟨2, 1, 2⟩ "task-3" "qwen" _ rfl (by decide)

/-! ## C1: retry exhaustion -/

lemma run_with_retry_loop_all_fail {α : Type} (policy : RetryPolicy)
    (task_id provider : String) (runner : Nat → AttemptResult α) (k : ErrorKind)
    (hk : k ∈ RETRYABLE_ERRORS)
    (hfail : ∀ n, (runner n).success = false ∧ (runner n).error_kind = some k) :
    ∀ (d attempts : Nat) (delays : List ℚ) (ws : List WarningKind),
      attempts + d = policy.max_retries →
      (run_with_retry_loop policy task_id provider runner attempts delays ws).success = false ∧
      (run_with_retry_loop policy task_id provider runner attempts delays ws).attempts =
        policy.max_retries + 1 ∧
      (run_with_retry_loop policy task_id provider runner attempts delays ws).final_error =
        some k ∧
      (run_with_retry_loop policy task_id provider runner attempts delays ws).delays_seconds =
        delays ++ (List.range' (attempts + 1) d).map policy.compute_delay := by
  intro d
  induction d with
  | zero =>
    intro a delays ws ha
    have h1 := (hfail (a + 1)).1
    have h2 := (hfail (a + 1)).2
    rw [run_with_retry_loop]
    simp only [h1, Bool.false_eq_true, if_false, h2, Option.getD_some]
    rw [dif_neg (by rintro ⟨-, hle2⟩; omega)]
    exact ⟨rfl, by simp; omega, rfl, by simp⟩
  | succ d ih =>
    intro a delays ws ha
    have h1 := (hfail (a + 1)).1
    have h2 := (hfail (a + 1)).2
    have hrec := ih (a + 1) (delays ++ [policy.compute_delay (a + 1)])
      (ws ++ (runner (a + 1)).warnings) (by omega)
    rw [run_with_retry_loop]
    simp only [h1, Bool.false_eq_true, if_false, h2, Option.getD_some]
    rw [dif_pos ⟨hk, by omega⟩]
    refine ⟨hrec.1, hrec.2.1, hrec.2.2.1, ?_⟩
    rw [hrec.2.2.2, List.range'_succ, List.map_cons]
    simp [List.append_assoc]

/-- C1: with `max_retries = N` and a runner that fails every attempt with the
same retryable kind, `run_with_retry` makes exactly `N + 1` attempts and
returns `success = false`, `final_error` equal to that kind, and `N` delays
with `delays[i] = base * multiplier ^ i`. -/
theorem C1_retry_budget {α : Type} (policy : RetryPolicy)
    (task_id provider : String) (runner : Nat → AttemptResult α) (k : ErrorKind)
    (hk : k ∈ RETRYABLE_ERRORS)
    (hfail : ∀ n, (runner n).success = false ∧ (runner n).error_kind = some k) :
    (run_with_retry policy task_id provider runner).success = false ∧
    (run_with_retry policy task_id provider runner).attempts = policy.max_retries + 1 ∧
    (run_with_retry policy task_id provider runner).final_error = some k ∧
    (run_with_retry policy task_id provider runner).delays_seconds.length =
      policy.max_retries ∧
    (∀ i : Nat, i < policy.max_retries →
      (run_with_retry policy task_id provider runner).delays_seconds.getD i 0 =
        policy.base_delay_seconds * policy.backoff_multiplier ^ i) := by
  have h := run_with_retry_loop_all_fail policy task_id provider runner k hk hfail
    policy.max_retries 0 [] [] (by omega)
  unfold run_with_retry
  refine ⟨h.1, h.2.1, h.2.2.1, ?_, ?_⟩
  · rw [h.2.2.2]
    simp
  · intro i hi
    rw [h.2.2.2]
    have hlt : i < (List.range' 1 policy.max_retries).length := by
      simpa using hi
    have hlen : i < ((List.range' 1 policy.max_retries).map policy.compute_delay).length := by
      simpa using hi
    rw [List.nil_append, List.getD_eq_getElem _ _ hlen]
    rw [List.getElem_map]
    rw [List.getElem_range']
    simp only [RetryPolicy.compute_delay]
    rw [show 1 + 1 * i - 1 = i by omega]

/-- Witness for C1: `RetryPolicy(max_retries=2, base=1, multiplier=2)` with a
runner that always reports `RETRYABLE_RATE_LIMIT` (the S3 scenario). -/
theorem C1_retry_budget_witness :
    (run_with_retry ⟨2, 1, 2⟩ "task-2" "codex"
        (fun _ => ({ success := false, error_kind := some ErrorKind.RETRYABLE_RATE_LIMIT } :
          AttemptResult Bool))).success = false ∧
    (run_with_retry ⟨2, 1, 2⟩ "task-2" "codex"
        (fun _ => ({ success := false, error_kind := some ErrorKind.RETRYABLE_RATE_LIMIT } :
          AttemptResult Bool))).attempts = 2 + 1 ∧
    (run_with_retry ⟨2, 1, 2⟩ "task-2" "codex"
        (fun _ => ({ success := false, error_kind := some ErrorKind.RETRYABLE_RATE_LIMIT } :
          AttemptResult Bool))).final_error = some ErrorKind.RETRYABLE_RATE_LIMIT ∧
    (run_with_retry ⟨2, 1, 2⟩ "task-2" "codex"
        (fun _ => ({ success := false, error_kind := some ErrorKind.RETRYABLE_RATE_LIMIT } :
          AttemptResult Bool))).delays_seconds.length = 2 ∧
    (∀ i : Nat, i < 2 →
      (run_with_retry ⟨2, 1, 2⟩ "task-2" "codex"
          (fun _ => ({ success := false, error_kind := some ErrorKind.RETRYABLE_RATE_LIMIT } :
            AttemptResult Bool))).delays_seconds.getD i 0 = 1 * 2 ^ i) :=
  C1_retry_budget ⟨2, 1, 2⟩ "task-2" "codex" _ ErrorKind.RETRYABLE_RATE_LIMIT
    (by decide) (fun _ => ⟨rfl, rfl⟩)

/-! ## C9: environment sanitization -/

lemma sanitize_env_eq_filter (environ : List (String × String)) :
    sanitize_env environ = environ.filter (fun p => p.1 ≠ "CLAUDECODE") := rfl

/-- C9: every spawned subprocess (the `run()` child, the version probe and the
auth probe) receives the ambient environment with exactly the variable
`CLAUDECODE` removed: `CLAUDECODE` is absent, every other variable (`PATH`
included) is preserved unchanged, and two ambient environments that agree
outside `CLAUDECODE` yield pointwise identical child environments. -/
theorem C9_environment_sanitization :
    ∀ environ : List (String × String),
      List.lookup "CLAUDECODE" (run_child_env environ) = none ∧
      List.lookup "CLAUDECODE" (probe_version_env environ) = none ∧
      List.lookup "CLAUDECODE" (probe_auth_env environ) = none ∧
      (∀ k : String, k ≠ "CLAUDECODE" →
        List.lookup k (run_child_env environ) = List.lookup k environ ∧
        List.lookup k (probe_version_env environ) = List.lookup k environ ∧
        List.lookup k (probe_auth_env environ) = List.lookup k environ) ∧
      (∀ environ₂ : List (String × String),
        (∀ k : String, k ≠ "CLAUDECODE" →
          List.lookup k environ = List.lookup k environ₂) →
        ∀ k : String,
          List.lookup k (run_child_env environ) =
            List.lookup k (run_child_env environ₂)) := by
  intro environ
  have habs : List.lookup "CLAUDECODE" (sanitize_env environ) = none := by
    rw [sanitize_env_eq_filter, lookup_filter_key_ne]
    simp
  have hkeep : ∀ k : String, k ≠ "CLAUDECODE" →
      List.lookup k (sanitize_env environ) = List.lookup k environ := by
    intro k hk
    rw [sanitize_env_eq_filter, lookup_filter_key_ne, if_neg hk]
  refine ⟨habs, habs, habs, fun k hk => ⟨hkeep k hk, hkeep k hk, hkeep k hk⟩, ?_⟩
  intro environ₂ hagree k
  show List.lookup k (sanitize_env environ) = List.lookup k (sanitize_env environ₂)
  rw [sanitize_env_eq_filter, sanitize_env_eq_filter,
    lookup_filter_key_ne, lookup_filter_key_ne]
  by_cases hk : k = "CLAUDECODE"
  · simp [hk]
  · rw [if_neg hk, if_neg hk]
    exact hagree k hk

/-- Witness for C9 on a concrete ambient environment holding `CLAUDECODE`
and `PATH`. -/
theorem C9_environment_sanitization_witness :
    List.lookup "CLAUDECODE"
      (run_child_env [("CLAUDECODE", "1"), ("PATH", "/usr/bin")]) = none ∧
    List.lookup "PATH"
      (run_child_env [("CLAUDECODE", "1"), ("PATH", "/usr/bin")]) =
      List.lookup "PATH" [("CLAUDECODE", "1"), ("PATH", "/usr/bin")] :=
  ⟨(C9_environment_sanitization [("CLAUDECODE", "1"), ("PATH", "/usr/bin")]).1,
   ((C9_environment_sanitization [("CLAUDECODE", "1"), ("PATH", "/usr/bin")]).2.2.2.1
     "PATH" (by decide)).1⟩

/-! ## C2: handle release (corrected) -/

/-- Counterexample to C2 as stated: a `cancel` call on a live handle whose
child is still observed alive at every liveness check (it survives SIGKILL
through the 100 ms grace wait) returns with the handle still in the run
table. -/
theorem C2_handle_release_counterexample :
    RunTable.containsRun
      (ShimAdapterBase.cancel
        [("claude-4f3c2a1b9d0e",
          { pid := 4242, stdout_path := "/tmp/mco/t1/raw/claude.stdout.log",
            stderr_path := "/tmp/mco/t1/raw/claude.stderr.log",
            provider_result_path := "/tmp/mco/t1/providers/claude.json" })]
        { task_id := "t1", provider := "claude", run_id := "claude-4f3c2a1b9d0e",
          pid := 4242, started_at := "2026-01-01T00:00:00+00:00" }
        { poll_before := none, term_lookup_error := false, poll_after_term := none,
          kill_lookup_error := false, poll_final := none })
      "claude-4f3c2a1b9d0e" = true := by
  decide

/-- C2 (amended): after any `poll()` that returns a terminal status the run
table no longer contains `run_id`; and after any `cancel()` that takes one of
its release paths — the initial liveness check observes an exited child, a
`ProcessLookupError` is raised while signalling, or the final liveness check
observes an exited child — the run table no longer contains `run_id`.  (A
`cancel` whose final liveness check still observes a live child returns with
the handle retained, which is the single deviation from the claim.) -/
theorem C2_handle_release_amended :
    (∀ (provider : String) (runs : RunTable) (ref : TaskRunRef) (os : PollOsOracle),
      (ShimAdapterBase.poll provider runs ref os).1.completed = true →
      RunTable.containsRun (ShimAdapterBase.poll provider runs ref os).2 ref.run_id = false) ∧
    (∀ (runs : RunTable) (ref : TaskRunRef) (os : CancelOsOracle),
      (os.poll_before.isSome = true ∨ os.term_lookup_error = true ∨
        (os.poll_after_term = none ∧ os.kill_lookup_error = true) ∨
        os.poll_final.isSome = true) →
      RunTable.containsRun (ShimAdapterBase.cancel runs ref os) ref.run_id = false) := by
  have hremoved : ∀ (runs : RunTable) (rid : String),
      RunTable.containsRun (runs.removeRun rid) rid = false := by
    intro runs rid
    show (List.lookup rid (List.filter (fun p => p.1 ≠ rid) runs)).isSome = false
    rw [lookup_filter_key_ne]
    simp
  constructor
  · intro provider runs ref os hterm
    cases hlook : List.lookup ref.run_id runs with
    | none =>
        simp only [ShimAdapterBase.poll, hlook]
        show (List.lookup ref.run_id runs).isSome = false
        rw [hlook]
        rfl
    | some handle =>
        cases hpoll : os.proc_poll with
        | none =>
            simp [ShimAdapterBase.poll, hlook, hpoll] at hterm
        | some rc =>
            simp only [ShimAdapterBase.poll, hlook, hpoll]
            exact hremoved runs ref.run_id
  · intro runs ref os hrelease
    unfold ShimAdapterBase.cancel
    cases hlook : List.lookup ref.run_id runs with
    | none =>
        show (List.lookup ref.run_id runs).isSome = false
        rw [hlook]
        rfl
    | some handle =>
        rcases hrelease with h | h | ⟨h1, h2⟩ | h
        · simp only [h, if_true]
          exact hremoved runs ref.run_id
        · by_cases hb : os.poll_before.isSome = true
          · simp only [hb, if_true]
            exact hremoved runs ref.run_id
          · simp only [hb, if_false, h, if_true]
            exact hremoved runs ref.run_id
        · by_cases hb : os.poll_before.isSome = true
          · simp only [hb, if_true]
            exact hremoved runs ref.run_id
          · by_cases ht : os.term_lookup_error = true
            · simp only [hb, if_false, ht, if_true]
              exact hremoved runs ref.run_id
            · simp only [hb, if_false, ht, h1, if_true, h2]
              exact hremoved runs ref.run_id
        · by_cases hb : os.poll_before.isSome = true
          · simp only [hb, if_true]
            exact hremoved runs ref.run_id
          · by_cases ht : os.term_lookup_error = true
            · simp only [hb, if_false, ht, if_true]
              exact hremoved runs ref.run_id
            · by_cases ha : os.poll_after_term = none
              · by_cases hkl : os.kill_lookup_error = true
                · simp only [hb, if_false, ht, ha, if_true, hkl]
                  exact hremoved runs ref.run_id
                · simp only [hb, if_false, ht, ha, if_true, hkl, h]
                  exact hremoved runs ref.run_id
              · simp only [hb, if_false, ht, ha, h, if_true]
                exact hremoved runs ref.run_id

/-- Witness for the amended C2: a terminal `poll` on a missing handle, and a
`cancel` whose first liveness check observes an exited child, both leave the
table without the run id. -/
theorem C2_handle_release_amended_witness :
    RunTable.containsRun
      (ShimAdapterBase.poll "claude" []
        { task_id := "t1", provider := "claude", run_id := "claude-000000000000",
          pid := 1, started_at := "s" }
        { proc_poll := none, stdout_text := "", stderr_text := "", now := "n" }).2
      "claude-000000000000" = false ∧
    RunTable.containsRun
      (ShimAdapterBase.cancel
        [("claude-000000000000",
          { pid := 1, stdout_path := "o", stderr_path := "e",
            provider_result_path := "r" })]
        { task_id := "t1", provider := "claude", run_id := "claude-000000000000",
          pid := 1, started_at := "s" }
        { poll_before := some 0, term_lookup_error := false, poll_after_term := none,
          kill_lookup_error := false, poll_final := none })
      "claude-000000000000" = false :=
  ⟨C2_handle_release_amended.1 "claude" [] _ _ rfl,
   C2_handle_release_amended.2 _ _ _ (Or.inl rfl)⟩

/-! ## C3: error_kind versus attempt_state (corrected) -/

/-- Counterexample to C3 as stated: a `poll` with no handle for `run_id`
returns the synthetic terminal status with `attempt_state = "EXPIRED"` (not
FAILED) and a non-null `error_kind` (`NON_RETRYABLE_INVALID_INPUT`). -/
theorem C3_error_kind_counterexample :
    (ShimAdapterBase.poll "claude" []
      { task_id := "t1", provider := "claude", run_id := "claude-ffffffffffff",
        pid := 7, started_at := "s" }
      { proc_poll := none, stdout_text := "", stderr_text := "", now := "n" }).1.attempt_state
        ≠ "FAILED" ∧
    (ShimAdapterBase.poll "claude" []
      { task_id := "t1", provider := "claude", run_id := "claude-ffffffffffff",
        pid := 7, started_at := "s" }
      { proc_poll := none, stdout_text := "", stderr_text := "", now := "n" }).1.error_kind
        ≠ none := by
  decide

/-- C3 (amended): for every `TaskStatus` that `poll()` returns, `error_kind`
is non-null iff `attempt_state = FAILED` or the status is the synthetic
missing-handle status (`attempt_state = EXPIRED` with
`message = "run_handle_not_found"`, where `error_kind` is
`NON_RETRYABLE_INVALID_INPUT`); in particular STARTED and SUCCEEDED statuses
always carry a null `error_kind`. -/
theorem C3_error_kind_amended :
    ∀ (provider : String) (runs : RunTable) (ref : TaskRunRef) (os : PollOsOracle),
      (ShimAdapterBase.poll provider runs ref os).1.error_kind ≠ none ↔
        ((ShimAdapterBase.poll provider runs ref os).1.attempt_state = "FAILED" ∨
         ((ShimAdapterBase.poll provider runs ref os).1.attempt_state = "EXPIRED" ∧
          (ShimAdapterBase.poll provider runs ref os).1.message = "run_handle_not_found")) := by
  intro provider runs ref os
  cases hlook : List.lookup ref.run_id runs with
  | none =>
      simp [ShimAdapterBase.poll, hlook]
  | some handle =>
      cases hpoll : os.proc_poll with
      | none =>
          simp [ShimAdapterBase.poll, hlook, hpoll]
      | some rc =>
          by_cases hrc : rc = 0
          · simp [ShimAdapterBase.poll, hlook, hpoll, hrc]
          · simp [ShimAdapterBase.poll, hlook, hpoll, hrc]

/-- Witness for the amended C3: a failed run (exit code 1) yields a FAILED
status with a non-null `error_kind`. -/
theorem C3_error_kind_amended_witness :
    (ShimAdapterBase.poll "claude"
      [("claude-000000000001",
        { pid := 1, stdout_path := "o", stderr_path := "e",
          provider_result_path := "r" })]
      { task_id := "t1", provider := "claude", run_id := "claude-000000000001",
        pid := 1, started_at := "s" }
      { proc_poll := some 1, stdout_text := "", stderr_text := "boom",
        now := "n" }).1.error_kind ≠ none :=
  (C3_error_kind_amended "claude"
    [("claude-000000000001",
      { pid := 1, stdout_path := "o", stderr_path := "e",
        provider_result_path := "r" })]
    { task_id := "t1", provider := "claude", run_id := "claude-000000000001",
      pid := 1, started_at := "s" }
    { proc_poll := some 1, stdout_text := "", stderr_text := "boom",
      now := "n" }).mpr (Or.inl (by decide))

/-! ## C7: SARIF document shape -/

lemma sarif_fold_results_length (hash10 : String → String)
    (findings : List Finding) :
    ∀ acc : List SarifRule × List SarifResult,
      ((findings.foldl (sarif_step hash10) acc).2).length = acc.2.length + findings.length := by
  induction findings with
  | nil => intro acc; simp
  | cons f tl ih =>
    intro acc
    rw [List.foldl_cons, ih]
    have hstep : ((sarif_step hash10 acc f).2).length = acc.2.length + 1 := by
      simp [sarif_step]
    rw [hstep]
    simp only [List.length_cons]
    omega

lemma sarif_fold_rule_ids_mem (hash10 : String → String)
    (findings : List Finding) :
    ∀ (acc : List SarifRule × List SarifResult) (rid : String),
      (rid ∈ ((findings.foldl (sarif_step hash10) acc).1).map SarifRule.id ↔
        rid ∈ acc.1.map SarifRule.id ∨
        rid ∈ findings.map (rule_id_for_finding hash10)) := by
  induction findings with
  | nil => intro acc rid; simp
  | cons f tl ih =>
    intro acc rid
    rw [List.foldl_cons, ih]
    have hstep : ∀ r : String,
        (r ∈ ((sarif_step hash10 acc f).1).map SarifRule.id ↔
          r ∈ acc.1.map SarifRule.id ∨ r = rule_id_for_finding hash10 f) := by
      intro r
      by_cases hdup : acc.1.any (fun ru => ru.id = rule_id_for_finding hash10 f)
      · have hmem : rule_id_for_finding hash10 f ∈ acc.1.map SarifRule.id := by
          obtain ⟨ru, hru, hid⟩ := List.any_eq_true.mp hdup
          exact List.mem_map.mpr ⟨ru, hru, of_decide_eq_true hid⟩
        simp only [sarif_step, hdup, if_true]
        constructor
        · exact Or.inl
        · rintro (h | h)
          · exact h
          · exact h ▸ hmem
      · simp only [sarif_step, Bool.not_eq_true] at hdup
        simp only [sarif_step, hdup, if_false, Bool.false_eq_true, List.map_append,
          List.mem_append, List.map_cons, List.map_nil, List.mem_cons,
          List.not_mem_nil, or_false]
    rw [hstep]
    simp only [List.map_cons, List.mem_cons]
    tauto

/-- C7: for every finding list and payload, `format_sarif` emits a document
with `version = "2.1.0"` and exactly one run whose `results` list has exactly
one entry per input finding, and the set of rule ids in the run's
`tool.driver.rules` is invariant under any permutation of the input list. -/
theorem C7_sarif_shape :
    ∀ (hash10 : String → String) (payload : Payload) (findings : List Finding),
      (format_sarif hash10 payload findings).version = "2.1.0" ∧
      (format_sarif hash10 payload findings).runs.length = 1 ∧
      ((format_sarif hash10 payload findings).runs.map (fun r => r.results.length)) =
        [findings.length] ∧
      (∀ findings₂ : List Finding, findings.Perm findings₂ →
        ∀ rid : String,
          rid ∈ sarif_rule_ids hash10 payload findings ↔
          rid ∈ sarif_rule_ids hash10 payload findings₂) := by
  intro hash10 payload findings
  refine ⟨rfl, rfl, ?_, ?_⟩
  · have h := sarif_fold_results_length hash10 findings ([], [])
    simp only [format_sarif]
    simp [h]
  · intro findings₂ hperm rid
    have h1 := sarif_fold_rule_ids_mem hash10 findings ([], []) rid
    have h2 := sarif_fold_rule_ids_mem hash10 findings₂ ([], []) rid
    have hmap : rid ∈ findings.map (rule_id_for_finding hash10) ↔
        rid ∈ findings₂.map (rule_id_for_finding hash10) :=
      (hperm.map (rule_id_for_finding hash10)).mem_iff
    show rid ∈ _ ↔ rid ∈ _
    simp only [sarif_rule_ids, format_sarif, List.flatMap_cons, List.flatMap_nil,
      List.append_nil]
    constructor
    · intro h
      have := h1.mp (by simpa using h)
      simp only [List.map_nil, List.not_mem_nil, false_or] at this
      have := h2.mpr (Or.inr (hmap.mp this))
      simpa using this
    · intro h
      have := h2.mp (by simpa using h)
      simp only [List.map_nil, List.not_mem_nil, false_or] at this
      have := h1.mpr (Or.inr (hmap.mpr this))
      simpa using this

/-- Witness for C7 on two concrete findings in both orders. -/
theorem C7_sarif_shape_witness :
    (format_sarif (fun _ => "abcdef0123")
      { decision := some "approve" }
      [{ severity := "high", category := "security", title := "Unsafe shell",
         recommendation := "use subprocess" },
       { severity := "low", category := "style", title := "Long line",
         recommendation := "" }]).version = "2.1.0" ∧
    ((format_sarif (fun _ => "abcdef0123")
      { decision := some "approve" }
      [{ severity := "high", category := "security", title := "Unsafe shell",
         recommendation := "use subprocess" },
       { severity := "low", category := "style", title := "Long line",
         recommendation := "" }]).runs.map (fun r => r.results.length)) = [2] ∧
    (∀ rid : String,
      rid ∈ sarif_rule_ids (fun _ => "abcdef0123") { decision := some "approve" }
        [{ severity := "high", category := "security", title := "Unsafe shell",
           recommendation := "use subprocess" },
         { severity := "low", category := "style", title := "Long line",
           recommendation := "" }] ↔
      rid ∈ sarif_rule_ids (fun _ => "abcdef0123") { decision := some "approve" }
        [{ severity := "low", category := "style", title := "Long line",
           recommendation := "" },
         { severity := "high", category := "security", title := "Unsafe shell",
           recommendation := "use subprocess" }]) :=
  ⟨(C7_sarif_shape (fun _ => "abcdef0123") { decision := some "approve" } _).1,
   (C7_sarif_shape (fun _ => "abcdef0123") { decision := some "approve" } _).2.2.1,
   (C7_sarif_shape (fun _ => "abcdef0123") { decision := some "approve" } _).2.2.2 _
     (List.Perm.swap _ _ _)⟩

/-! ## C8: markdown cell escaping -/

lemma escape_chars_eq_flatMap (l : List Char) :
    replace_char '\n' "<br>".data
      (replace_char '|' ['\\', '|'] (replace_char '\\' ['\\', '\\'] l)) =
    l.flatMap escape_char_expansion := by
  show ((l.flatMap _).flatMap _).flatMap _ = _
  rw [List.flatMap_assoc, List.flatMap_assoc]
  congr 1
  funext c
  by_cases h1 : c = '\\'
  · subst h1
    rfl
  · by_cases h2 : c = '|'
    · subst h2
      rfl
    · by_cases h3 : c = '\n'
      · subst h3
        rfl
      · simp [escape_char_expansion, h1, h2, h3]

lemma escape_markdown_cell_data (s : String) :
    (escape_markdown_cell s).data = s.data.flatMap escape_char_expansion := by
  show (String.mk _).data = _
  rw [escape_chars_eq_flatMap]

lemma escapedCells_flatMap (l : List Char) :
    EscapedCells (l.flatMap escape_char_expansion) := by
  induction l with
  | nil => exact EscapedCells.nil
  | cons c tl ih =>
    rw [List.flatMap_cons]
    by_cases h1 : c = '\\'
    · subst h1
      exact EscapedCells.escaped_backslash ih
    · by_cases h2 : c = '|'
      · subst h2
        exact EscapedCells.escaped_pipe ih
      · by_cases h3 : c = '\n'
        · subst h3
          exact EscapedCells.plain '<' (by decide) (by decide) (by decide)
            (EscapedCells.plain 'b' (by decide) (by decide) (by decide)
              (EscapedCells.plain 'r' (by decide) (by decide) (by decide)
                (EscapedCells.plain '>' (by decide) (by decide) (by decide) ih)))
        · rw [show escape_char_expansion c = [c] by
            simp [escape_char_expansion, h1, h2, h3]]
          exact EscapedCells.plain c h1 h2 h3 ih

lemma no_newline_in_escape (s : String) : '\n' ∉ (escape_markdown_cell s).data := by
  rw [escape_markdown_cell_data]
  intro h
  obtain ⟨c, _, hmem⟩ := List.mem_flatMap.mp h
  by_cases h1 : c = '\\'
  · subst h1
    exact absurd hmem (by decide)
  · by_cases h2 : c = '|'
    · subst h2
      exact absurd hmem (by decide)
    · by_cases h3 : c = '\n'
      · subst h3
        exact absurd hmem (by decide)
      · rw [show escape_char_expansion c = [c] by
          simp [escape_char_expansion, h1, h2, h3]] at hmem
        exact h3 ((List.mem_singleton.mp hmem).symm)

lemma mem_flatMap_infix (c : Char) (l : List Char) (h : c ∈ l) :
    escape_char_expansion c <:+: l.flatMap escape_char_expansion := by
  induction l with
  | nil => cases h
  | cons x tl ih =>
    rw [List.flatMap_cons]
    rcases List.mem_cons.mp h with h | h
    · subst h
      exact ⟨[], tl.flatMap escape_char_expansion, by simp⟩
    · obtain ⟨s, t, hst⟩ := ih h
      exact ⟨escape_char_expansion x ++ s, t, by rw [← hst]; simp [List.append_assoc]⟩

lemma escaped_cell_infix_row (f : Finding) :
    ∀ s ∈ finding_cell_sources f,
      (escape_markdown_cell s).data <:+: (render_finding_row f).data := by
  intro s hs
  simp only [finding_cell_sources, List.mem_cons, List.not_mem_nil, or_false] at hs
  rcases hs with h | h | h | h | h
  · subst h
    exact ⟨("| " ++ "`").data,
      ("`" ++ " | " ++ escape_markdown_cell f.category ++ " | " ++
        escape_markdown_cell f.title ++ " | " ++
        ("`" ++ escape_markdown_cell (finding_location f) ++ "`") ++ " | " ++
        confidence_cell f ++ " | " ++ escape_markdown_cell f.recommendation ++ " |").data,
      by simp [render_finding_row, row_cells, py_join, String.data_append,
        List.append_assoc]⟩
  · subst h
    exact ⟨("| " ++ ("`" ++ escape_markdown_cell (py_lower f.severity) ++ "`") ++ " | ").data,
      (" | " ++ escape_markdown_cell f.title ++ " | " ++
        ("`" ++ escape_markdown_cell (finding_location f) ++ "`") ++ " | " ++
        confidence_cell f ++ " | " ++ escape_markdown_cell f.recommendation ++ " |").data,
      by simp [render_finding_row, row_cells, py_join, String.data_append,
        List.append_assoc]⟩
  · subst h
    exact ⟨("| " ++ ("`" ++ escape_markdown_cell (py_lower f.severity) ++ "`") ++ " | " ++
        escape_markdown_cell f.category ++ " | ").data,
      (" | " ++ ("`" ++ escape_markdown_cell (finding_location f) ++ "`") ++ " | " ++
        confidence_cell f ++ " | " ++ escape_markdown_cell f.recommendation ++ " |").data,
      by simp [render_finding_row, row_cells, py_join, String.data_append,
        List.append_assoc]⟩
  · subst h
    exact ⟨("| " ++ ("`" ++ escape_markdown_cell (py_lower f.severity) ++ "`") ++ " | " ++
        escape_markdown_cell f.category ++ " | " ++ escape_markdown_cell f.title ++
        " | " ++ "`").data,
      ("`" ++ " | " ++ confidence_cell f ++ " | " ++
        escape_markdown_cell f.recommendation ++ " |").data,
      by simp [render_finding_row, row_cells, py_join, String.data_append,
        List.append_assoc]⟩
  · subst h
    exact ⟨("| " ++ ("`" ++ escape_markdown_cell (py_lower f.severity) ++ "`") ++ " | " ++
        escape_markdown_cell f.category ++ " | " ++ escape_markdown_cell f.title ++
        " | " ++ ("`" ++ escape_markdown_cell (finding_location f) ++ "`") ++ " | " ++
        confidence_cell f ++ " | ").data,
      (" |" : String).data,
      by simp [render_finding_row, row_cells, py_join, String.data_append,
        List.append_assoc]⟩

/-- C8: for every finding, each of the severity, category, title, location
and recommendation cells is escaped by replacing `\` with `\\` first, then
`|` with `\|`, then newline with `<br>` (the three
sequential replacements amount to the per-character expansion); the escaped
cell contains markdown-special characters only inside escape sequences and no
raw newline; and whenever the cell's source text contains `\`, `|` or a
newline, the rendered table row contains the corresponding escape sequence
`\\`, `\|` or `<br>`. -/
theorem C8_markdown_cell_escaping :
    ∀ (f : Finding) (s : String), s ∈ finding_cell_sources f →
      ((escape_markdown_cell s).data = s.data.flatMap escape_char_expansion) ∧
      EscapedCells (escape_markdown_cell s).data ∧
      '\n' ∉ (escape_markdown_cell s).data ∧
      ('\\' ∈ s.data → ['\\', '\\'] <:+: (render_finding_row f).data) ∧
      ('|' ∈ s.data → ['\\', '|'] <:+: (render_finding_row f).data) ∧
      ('\n' ∈ s.data → "<br>".data <:+: (render_finding_row f).data) := by
  intro f s hs
  have hdata := escape_markdown_cell_data s
  have hrow := escaped_cell_infix_row f s hs
  refine ⟨hdata, ?_, no_newline_in_escape s, ?_, ?_, ?_⟩
  · rw [hdata]
    exact escapedCells_flatMap s.data
  · intro hc
    have h1 := mem_flatMap_infix '\\' s.data hc
    rw [← hdata] at h1
    exact infix_trans h1 hrow
  · intro hc
    have h1 := mem_flatMap_infix '|' s.data hc
    rw [← hdata] at h1
    exact infix_trans h1 hrow
  · intro hc
    have h1 := mem_flatMap_infix '\n' s.data hc
    rw [← hdata] at h1
    exact infix_trans h1 hrow

/-- Witness for C8: a category cell containing a pipe produces the escape
sequence in the rendered row. -/
theorem C8_markdown_cell_escaping_witness :
    ['\\', '|'] <:+:
      (render_finding_row
        { severity := "high", category := "cat|name", title := "t",
          recommendation := "r" }).data :=
  (C8_markdown_cell_escaping
    { severity := "high", category := "cat|name", title := "t", recommendation := "r" }
    "cat|name" (List.mem_cons_of_mem _ (List.mem_cons_self _ _))).2.2.2.2.1 (by decide)

/-! ## C10: unknown severities in the markdown report -/

lemma finding_key_le_trans (a b c : Finding) :
    finding_key_le a b = true → finding_key_le b c = true → finding_key_le a c = true := by
  simp only [finding_key_le, decide_eq_true_eq]
  exact le_trans

lemma finding_key_le_total (a b : Finding) :
    (finding_key_le a b || finding_key_le b a) = true := by
  simp only [finding_key_le, Bool.or_eq_true, decide_eq_true_eq]
  exact le_total _ _

lemma finding_key_le_rank {a b : Finding} (h : finding_key_le a b = true) :
    severity_rank a ≤ severity_rank b := by
  simp only [finding_key_le, decide_eq_true_eq] at h
  rcases (Prod.Lex.le_iff _ _).mp h with h1 | ⟨h1, -⟩
  · exact le_of_lt h1
  · exact le_of_eq h1

lemma severity_indicator_sum (s : String) :
    (SEVERITY_ORDER.map (fun level => if s = level then 1 else 0)).sum =
      if s ∈ SEVERITY_ORDER then 1 else 0 := by
  by_cases hm : s ∈ SEVERITY_ORDER
  · rw [if_pos hm]
    simp only [SEVERITY_ORDER, List.mem_cons, List.not_mem_nil, or_false] at hm
    rcases hm with h | h | h | h <;> subst h <;> decide
  · rw [if_neg hm]
    have h1 : ¬ (s = "critical") := fun h => hm (by rw [h]; decide)
    have h2 : ¬ (s = "high") := fun h => hm (by rw [h]; decide)
    have h3 : ¬ (s = "medium") := fun h => hm (by rw [h]; decide)
    have h4 : ¬ (s = "low") := fun h => hm (by rw [h]; decide)
    simp [SEVERITY_ORDER, h1, h2, h3, h4]

lemma breakdown_total_eq (findings : List Finding) :
    breakdown_total findings =
      (findings.filter (fun f => decide (py_lower f.severity ∈ SEVERITY_ORDER))).length := by
  induction findings with
  | nil => rfl
  | cons f tl ih =>
    have hcons : ∀ level, severity_count (f :: tl) level =
        (if py_lower f.severity = level then 1 else 0) + severity_count tl level := by
      intro level
      simp only [severity_count, List.filter_cons]
      by_cases h : py_lower f.severity = level <;> simp [h] <;> omega
    have hsum : breakdown_total (f :: tl) =
        (SEVERITY_ORDER.map (fun level => if py_lower f.severity = level then 1 else 0)).sum +
          breakdown_total tl := by
      simp only [breakdown_total]
      rw [List.map_congr_left (fun level _ => hcons level), List.sum_map_add]
    rw [hsum, severity_indicator_sum, ih, List.filter_cons]
    by_cases h : py_lower f.severity ∈ SEVERITY_ORDER
    · simp [h]
      omega
    · simp [h]

/-- C10: in `format_markdown_pr`, a finding whose lowercased severity is not
one of critical, high, medium, low is excluded from the Severity Breakdown
counts (the sum of the four counts is the number of known-severity findings),
yet it is still rendered as a row of the findings table (one row per finding,
the rows being the sorted permutation of the input), ordered after all
findings with known severities (severity ranks are non-decreasing along the
rows, unknown severities ranking strictly after known ones); hence when an
unknown-severity finding is present, the four counts sum to strictly fewer
than the number of rendered rows. -/
theorem C10_unknown_severity_handling :
    ∀ findings : List Finding,
      breakdown_total findings =
        (findings.filter (fun f => decide (py_lower f.severity ∈ SEVERITY_ORDER))).length ∧
      (ordered_findings findings).Perm findings ∧
      (markdown_finding_rows findings).length = findings.length ∧
      (ordered_findings findings).Pairwise (fun a b => severity_rank a ≤ severity_rank b) ∧
      (∀ f : Finding, py_lower f.severity ∉ SEVERITY_ORDER →
        severity_rank f = SEVERITY_ORDER.length) ∧
      (∀ f : Finding, py_lower f.severity ∈ SEVERITY_ORDER →
        severity_rank f < SEVERITY_ORDER.length) ∧
      ((∃ f ∈ findings, py_lower f.severity ∉ SEVERITY_ORDER) →
        breakdown_total findings < (markdown_finding_rows findings).length) := by
  intro findings
  have hperm : (ordered_findings findings).Perm findings :=
    List.mergeSort_perm findings finding_key_le
  have hrows : (markdown_finding_rows findings).length = findings.length := by
    simp [markdown_finding_rows, hperm.length_eq]
  refine ⟨breakdown_total_eq findings, hperm, hrows, ?_, ?_, ?_, ?_⟩
  · have hs := List.sorted_mergeSort
      finding_key_le_trans finding_key_le_total findings
    exact hs.imp finding_key_le_rank
  · intro f hf
    exact List.indexOf_eq_length.mpr hf
  · intro f hf
    exact List.indexOf_lt_length.mpr hf
  · rintro ⟨f, hfm, hfu⟩
    rw [breakdown_total_eq, hrows]
    exact List.length_filter_lt_length_iff_exists.mpr ⟨f, hfm, by simp [hfu]⟩

/-- Witness for C10: one finding with the unknown severity `"blocker"` next
to one with the known severity `"low"`. -/
theorem C10_unknown_severity_handling_witness :
    breakdown_total
        [{ severity := "blocker", category := "c", title := "t", recommendation := "r" },
         { severity := "low", category := "c", title := "t", recommendation := "r" }] <
      (markdown_finding_rows
        [{ severity := "blocker", category := "c", title := "t", recommendation := "r" },
         { severity := "low", category := "c", title := "t", recommendation := "r" }]).length :=
  (C10_unknown_severity_handling
    [{ severity := "blocker", category := "c", title := "t", recommendation := "r" },
     { severity := "low", category := "c", title := "t", recommendation := "r" }]).2.2.2.2.2.2
    ⟨{ severity := "blocker", category := "c", title := "t", recommendation := "r" },
      List.mem_cons_self _ _, by decide⟩
